import Mathlib

/-!
Shallow embedding of the NVIDIA Tegra241 CMDQV register-file emulator
(`hw/arm/tegra241-cmdqv.c`) and of the iommufd backend helpers
(`backends/iommufd.c`), together with theorems checking the design
specification against the code.

Machine integers are modelled as `Nat` with explicit `% 2^w` where the C
code truncates (stores into `uint32_t` fields, shifts of `uint64_t`).
Fixed-size C arrays are modelled as total functions `Nat → Nat`; the
indices the code computes are exposed as separate definitions so that
in-boundedness against the declared C array lengths can be stated.
Kernel interactions (ioctl results, `iommufd_viommu_alloc_queue`,
`cpu_physical_memory_is_ram`, the SMMU's `viommu` pointer) are supplied
by an environment record, and the ids freed by `iommufd_backend_free_id`
plus the queue-reconfiguration attempts are returned as traces.
-/

namespace Tegra241

/-- Register cache of `struct Tegra241CMDQV` (tegra241-cmdqv.c lines 35-65),
plus the `viommu` cache pointer (modelled as a flag), the 128 `vqueue`
slots (modelled as the stored kernel queue id, `none` for NULL) and the
shared live page `vcmdq_page0` (32-bit word stored at each byte offset).
The C arrays have declared lengths 2 (`vi_err_map`, `vi_int_mask`,
`cmdq_err_map`), 4 (`vintf_cmdq_err_map`) and 128 (all per-queue arrays);
they are modelled as total functions. -/
structure CMDQV where
  viommu : Bool
  vqueue : Nat → Option Nat
  vcmdq_page0 : Nat → Nat
  config : Nat
  param : Nat
  status : Nat
  vi_err_map : Nat → Nat
  vi_int_mask : Nat → Nat
  cmdq_err_map : Nat → Nat
  cmdq_alloc_map : Nat → Nat
  vintf_config : Nat
  vintf_status : Nat
  vintf_cmdq_err_map : Nat → Nat
  vcmdq_cons_indx : Nat → Nat
  vcmdq_prod_indx : Nat → Nat
  vcmdq_config : Nat → Nat
  vcmdq_status : Nat → Nat
  vcmdq_gerror : Nat → Nat
  vcmdq_gerrorn : Nat → Nat
  vcmdq_base : Nat → Nat
  vcmdq_cons_indx_base : Nat → Nat

/-- Environment consulted by `tegra241_cmdqv_setup_vcmdq`: whether
`ARM_SMMU(s->smmu_dev)->viommu` is non-NULL, the result of
`cpu_physical_memory_is_ram`, and the outcome of
`iommufd_viommu_alloc_queue` (the new kernel queue id, or `none` on
allocation failure). -/
structure SetupEnv where
  bs_viommu : Bool
  is_ram : Nat → Bool
  alloc_vqueue : Option Nat

/-- Pointwise update of a function-modelled register array. -/
def updNat (f : Nat → Nat) (i v : Nat) : Nat → Nat :=
  fun j => if j = i then v else f j

/-- Pointwise update of the vqueue slot array. -/
def updQ (f : Nat → Option Nat) (i : Nat) (v : Option Nat) : Nat → Option Nat :=
  fun j => if j = i then v else f j

/-- Index the code computes for `vi_err_map` reads: `(offset - A_VI_ERR_MAP) / 2`
with `A_VI_ERR_MAP = 0x14` (tegra241-cmdqv.c line 232). -/
def vi_err_map_idx (offset : Nat) : Nat := (offset - 0x14) / 2

/-- Index the code computes for `vi_int_mask` accesses:
`(offset - A_VI_INT_MASK) / 2` with `A_VI_INT_MASK = 0x1c` (lines 235, 425). -/
def vi_int_mask_idx (offset : Nat) : Nat := (offset - 0x1c) / 2

/-- Index the code computes for `cmdq_err_map` reads:
`(offset - A_CMDQ_ERR_MAP) / 4` with `A_CMDQ_ERR_MAP = 0x24` (line 238). -/
def cmdq_err_map_idx (offset : Nat) : Nat := (offset - 0x24) / 4

/-- Index the code computes for `cmdq_alloc_map` accesses:
`(offset - A_CMDQ_ALLOC_MAP_0) / 128` with `A_CMDQ_ALLOC_MAP_0 = 0x200`
(lines 241, 429). -/
def cmdq_alloc_map_idx (offset : Nat) : Nat := (offset - 0x200) / 128

/-- Index computed for `vintf_cmdq_err_map` reads:
`(offset - A_VINTF0_CMDQ_ERR_MAP_0) / 4` with base `0x10c0` (line 110). -/
def vintf_cmdq_err_map_idx (offset : Nat) : Nat := (offset - 0x10c0) / 4

/-- Queue index extracted in the `0x10000` per-queue window:
`(offset - 0x10000) / 0x80` (lines 254, 448). -/
def vcmdq_idx_low (offset : Nat) : Nat := (offset - 0x10000) / 0x80

/-- Queue index extracted in the `0x20000` per-queue window:
`(offset - 0x20000) / 0x80` (lines 265, 464). -/
def vcmdq_idx_high (offset : Nat) : Nat := (offset - 0x20000) / 0x80

/-- Result of `tegra241_cmdqv_setup_vcmdq`: the new state, the kernel ids
passed to `iommufd_backend_free_id`, and the C return value. -/
structure SetupResult where
  state : CMDQV
  freed : List Nat
  ret : Int

/-- Embedding of `tegra241_cmdqv_setup_vcmdq` (tegra241-cmdqv.c lines
298-337).  `base_mask = R_VCMDQ0_BASE_L_ADDR_MASK | R_VCMDQ0_BASE_H_ADDR_MASK << 32
= 0xffffffe0 | 0xffff00000000`; `log2size = base & R_VCMDQ0_BASE_L_LOG2SIZE_MASK
(0x1f)`.  Precondition failures return -ENODEV (-19) / -EINVAL (-22) before
touching the existing queue object.  When the preconditions pass, the old
queue object (if any) is freed, `s->viommu` is cached, and the replacement
is allocated; on allocation failure the function returns -ENODEV without
writing `s->vqueue[index]`. -/
def tegra241_cmdqv_setup_vcmdq (env : SetupEnv) (s : CMDQV) (index : Nat) :
    SetupResult :=
  let log2size := s.vcmdq_base index &&& 0x1f
  let base := s.vcmdq_base index &&& (0xffffffe0 ||| (0xffff <<< 32))
  if !env.bs_viommu then ⟨s, [], -19⟩
  else if log2size = 0 then ⟨s, [], -22⟩
  else if !(env.is_ram base) then ⟨s, [], -22⟩
  else
    let freed := match s.vqueue index with
      | some oldId => [oldId]
      | none => []
    let s1 := if s.viommu then s else { s with viommu := true }
    match env.alloc_vqueue with
    | none => ⟨s1, freed, -19⟩
    | some newId => ⟨{ s1 with vqueue := updQ s1.vqueue index (some newId) }, freed, 0⟩

/-- Result of a register write: the new state, the freed kernel queue ids,
and the reconfiguration attempts as pairs of (queue index, 64-bit shadow
base value at the `tegra241_cmdqv_setup_vcmdq` call). -/
structure WriteResult where
  state : CMDQV
  freed : List Nat
  attempts : List (Nat × Nat)

/-- Embedding of `tegra241_cmdqv_write_vcmdq` (tegra241-cmdqv.c lines
340-401).  `offset` has been aligned down by the dispatcher so that the
handled cases are `A_VCMDQ0_CONS_INDX (0x10000)`, `A_VCMDQ0_PROD_INDX
(0x10004)`, `A_VCMDQ0_CONFIG (0x10008)`, `A_VCMDQ0_GERRORN (0x10014)`,
`A_VCMDQ0_BASE_L (0x20000)`, `A_VCMDQ0_BASE_H (0x20004)`,
`A_VCMDQ0_CONS_INDX_BASE_DRAM_L (0x20008)` and
`A_VCMDQ0_CONS_INDX_BASE_DRAM_H (0x2000c)`.  The first four mirror the
32-bit value into the live page at byte offset `0x80 * index + offset -
0x10000`; the base writes update the 64-bit shadow and invoke
`tegra241_cmdqv_setup_vcmdq`. -/
def tegra241_cmdqv_write_vcmdq (env : SetupEnv) (s : CMDQV)
    (offset index value size : Nat) : WriteResult :=
  let pageOff := 0x80 * index + offset - 0x10000
  if offset = 0x10000 then
    ⟨{ s with vcmdq_cons_indx := updNat s.vcmdq_cons_indx index (value % 2^32),
              vcmdq_page0 := updNat s.vcmdq_page0 pageOff (value % 2^32) }, [], []⟩
  else if offset = 0x10004 then
    ⟨{ s with vcmdq_prod_indx := updNat s.vcmdq_prod_indx index (value % 2^32),
              vcmdq_page0 := updNat s.vcmdq_page0 pageOff (value % 2^32) }, [], []⟩
  else if offset = 0x10008 then
    ⟨{ s with vcmdq_config := updNat s.vcmdq_config index (value % 2^32),
              vcmdq_page0 := updNat s.vcmdq_page0 pageOff (value % 2^32) }, [], []⟩
  else if offset = 0x10014 then
    ⟨{ s with vcmdq_gerrorn := updNat s.vcmdq_gerrorn index (value % 2^32),
              vcmdq_page0 := updNat s.vcmdq_page0 pageOff (value % 2^32) }, [], []⟩
  else if offset = 0x20000 then
    let newBase :=
      if size = 8 then value
      else if size = 4 then
        (s.vcmdq_base index &&& 0xffffffff00000000) ||| (value &&& 0xffffffff)
      else s.vcmdq_base index
    let s1 := { s with vcmdq_base := updNat s.vcmdq_base index newBase }
    let r := tegra241_cmdqv_setup_vcmdq env s1 index
    ⟨r.state, r.freed, [(index, newBase)]⟩
  else if offset = 0x20004 then
    let newBase := (s.vcmdq_base index &&& 0xffffffff) ||| ((value <<< 32) % 2^64)
    let s1 := { s with vcmdq_base := updNat s.vcmdq_base index newBase }
    let r := tegra241_cmdqv_setup_vcmdq env s1 index
    ⟨r.state, r.freed, [(index, newBase)]⟩
  else if offset = 0x20008 then
    let nb :=
      if size = 8 then value
      else if size = 4 then
        (s.vcmdq_cons_indx_base index &&& 0xffffffff) ||| (value &&& 0xffffffff)
      else s.vcmdq_cons_indx_base index
    ⟨{ s with vcmdq_cons_indx_base := updNat s.vcmdq_cons_indx_base index nb }, [], []⟩
  else if offset = 0x2000c then
    let nb := (s.vcmdq_cons_indx_base index &&& 0xffffffff00000000) |||
              ((value <<< 32) % 2^64)
    ⟨{ s with vcmdq_cons_indx_base := updNat s.vcmdq_cons_indx_base index nb }, [], []⟩
  else ⟨s, [], []⟩

/-- Embedding of `tegra241_cmdqv_write_vintf` (tegra241-cmdqv.c lines
275-296).  Only `A_VINTF0_CONFIG (0x1000)` is handled: the guest value
first has `R_VINTF0_CONFIG_HYP_OWN_MASK` (bit 17) stripped (as a 64-bit
`&= ~0x20000`), is then stored into the 32-bit `vintf_config`, and
`vintf_status` is set to `R_VINTF0_STATUS_ENABLE_OK_MASK (1)` when the
`ENABLE` bit (bit 0) of the masked value is set, else has that bit
cleared (`&= ~1` on the 32-bit register). -/
def tegra241_cmdqv_write_vintf (s : CMDQV) (offset value _size : Nat) : CMDQV :=
  if offset = 0x1000 then
    if (value &&& 0xfffffffffffdffff) &&& 1 ≠ 0 then
      { s with vintf_config := (value &&& 0xfffffffffffdffff) % 2^32
               vintf_status := 1 }
    else
      { s with vintf_config := (value &&& 0xfffffffffffdffff) % 2^32
               vintf_status := s.vintf_status &&& 0xfffffffe }
  else s

/-- Inner body shared by the primary `0x10000` window and its
virtual-interface alias after the `offset -= 0x20000` fallthrough
(tegra241-cmdqv.c lines 436-450). -/
def writeVcmdqLow (env : SetupEnv) (s : CMDQV) (off value size : Nat) :
    WriteResult :=
  let index := vcmdq_idx_low off
  tegra241_cmdqv_write_vcmdq env s (off - 0x80 * index) index value size

/-- Inner body shared by the primary `0x20000` window and its
virtual-interface alias after the `offset -= 0x20000` fallthrough
(tegra241-cmdqv.c lines 452-466). -/
def writeVcmdqHigh (env : SetupEnv) (s : CMDQV) (off value size : Nat) :
    WriteResult :=
  let index := vcmdq_idx_high off
  tegra241_cmdqv_write_vcmdq env s (off - 0x80 * index) index value size

/-- Embedding of `tegra241_cmdqv_write` (tegra241-cmdqv.c lines 403-473).
Offsets strictly beyond 0x50000 are rejected up front; the switch then
handles `A_CONFIG (0)`, the `A_VI_INT_MASK` pair (0x1c-0x20), the
`A_CMDQ_ALLOC_MAP` table (0x200-0x3fc), the VINTF block (0x1000-0x10cc),
the per-queue `0x10000` window (0x10000-0x13f94) together with its
`0x30000` alias (which subtracts 0x20000 and falls through), and the
per-queue `0x20000` window (0x20000-0x23f8c) together with its `0x40000`
alias.  Everything else is diagnostic-only. -/
def tegra241_cmdqv_write (env : SetupEnv) (s : CMDQV)
    (offset value size : Nat) : WriteResult :=
  if offset > 0x50000 then ⟨s, [], []⟩
  else if offset = 0 then ⟨{ s with config := value % 2^32 }, [], []⟩
  else if 0x1c ≤ offset ∧ offset ≤ 0x20 then
    ⟨{ s with vi_int_mask := updNat s.vi_int_mask (vi_int_mask_idx offset)
                (value % 2^32) }, [], []⟩
  else if 0x200 ≤ offset ∧ offset ≤ 0x3fc then
    ⟨{ s with cmdq_alloc_map := updNat s.cmdq_alloc_map (cmdq_alloc_map_idx offset)
                (value % 2^32) }, [], []⟩
  else if 0x1000 ≤ offset ∧ offset ≤ 0x10cc then
    ⟨tegra241_cmdqv_write_vintf s offset value size, [], []⟩
  else if (0x30000 ≤ offset ∧ offset ≤ 0x33f94) ∨
          (0x10000 ≤ offset ∧ offset ≤ 0x13f94) then
    writeVcmdqLow env s (if 0x30000 ≤ offset then offset - 0x20000 else offset)
      value size
  else if (0x40000 ≤ offset ∧ offset ≤ 0x43f8c) ∨
          (0x20000 ≤ offset ∧ offset ≤ 0x23f8c) then
    writeVcmdqHigh env s (if 0x40000 ≤ offset then offset - 0x20000 else offset)
      value size
  else ⟨s, [], []⟩

/-- Embedding of `tegra241_cmdqv_read_vintf` (tegra241-cmdqv.c lines
98-117): `A_VINTF0_CONFIG (0x1000)`, `A_VINTF0_STATUS (0x1004)` and the
four error-map words at 0x10c0-0x10cc; everything else reads as 0. -/
def tegra241_cmdqv_read_vintf (s : CMDQV) (offset : Nat) : Nat :=
  if offset = 0x1000 then s.vintf_config
  else if offset = 0x1004 then s.vintf_status
  else if 0x10c0 ≤ offset ∧ offset ≤ 0x10cc then
    s.vintf_cmdq_err_map (vintf_cmdq_err_map_idx offset)
  else 0

/-- Embedding of `tegra241_cmdqv_read_vcmdq` (tegra241-cmdqv.c lines
120-171).  The six low-window fields refresh the shadow from the live
page at byte offset `0x80 * index + offset - 0x10000` before returning
it; the base registers return the shadow halves directly. -/
def tegra241_cmdqv_read_vcmdq (s : CMDQV) (offset index : Nat) :
    CMDQV × Nat :=
  let pageOff := 0x80 * index + offset - 0x10000
  if offset = 0x10000 then
    let v := s.vcmdq_page0 pageOff
    ({ s with vcmdq_cons_indx := updNat s.vcmdq_cons_indx index v }, v)
  else if offset = 0x10004 then
    let v := s.vcmdq_page0 pageOff
    ({ s with vcmdq_prod_indx := updNat s.vcmdq_prod_indx index v }, v)
  else if offset = 0x10008 then
    let v := s.vcmdq_page0 pageOff
    ({ s with vcmdq_config := updNat s.vcmdq_config index v }, v)
  else if offset = 0x1000c then
    let v := s.vcmdq_page0 pageOff
    ({ s with vcmdq_status := updNat s.vcmdq_status index v }, v)
  else if offset = 0x10010 then
    let v := s.vcmdq_page0 pageOff
    ({ s with vcmdq_gerror := updNat s.vcmdq_gerror index v }, v)
  else if offset = 0x10014 then
    let v := s.vcmdq_page0 pageOff
    ({ s with vcmdq_gerrorn := updNat s.vcmdq_gerrorn index v }, v)
  else if offset = 0x20000 then (s, s.vcmdq_base index)
  else if offset = 0x20004 then (s, s.vcmdq_base index >>> 32)
  else if offset = 0x20008 then (s, s.vcmdq_cons_indx_base index)
  else if offset = 0x2000c then (s, s.vcmdq_cons_indx_base index >>> 32)
  else (s, 0)

/-- Embedding of `tegra241_cmdqv_read` (tegra241-cmdqv.c lines 205-272).
Returns the (possibly page-refreshed) state and the value read.  Note the
read dispatcher has no alias-window cases: the 0x30000 window is served
by an overlapping RAM memory region, outside this function. -/
def tegra241_cmdqv_read (s : CMDQV) (offset _size : Nat) : CMDQV × Nat :=
  if offset > 0x50000 then (s, 0)
  else if offset = 0 then (s, s.config)
  else if offset = 4 then (s, s.param)
  else if offset = 8 then (s, s.status)
  else if 0x14 ≤ offset ∧ offset ≤ 0x18 then
    (s, s.vi_err_map (vi_err_map_idx offset))
  else if 0x1c ≤ offset ∧ offset ≤ 0x20 then
    (s, s.vi_int_mask (vi_int_mask_idx offset))
  else if 0x24 ≤ offset ∧ offset ≤ 0x30 then
    (s, s.cmdq_err_map (cmdq_err_map_idx offset))
  else if 0x200 ≤ offset ∧ offset ≤ 0x3fc then
    (s, s.cmdq_alloc_map (cmdq_alloc_map_idx offset))
  else if 0x1000 ≤ offset ∧ offset ≤ 0x10cc then
    (s, tegra241_cmdqv_read_vintf s offset)
  else if 0x10000 ≤ offset ∧ offset ≤ 0x13f94 then
    let index := vcmdq_idx_low offset
    tegra241_cmdqv_read_vcmdq s (offset - 0x80 * index) index
  else if 0x20000 ≤ offset ∧ offset ≤ 0x23f8c then
    let index := vcmdq_idx_high offset
    tegra241_cmdqv_read_vcmdq s (offset - 0x80 * index) index
  else (s, 0)

/-- Embedding of `cmdqv_init_regs` (tegra241-cmdqv.c lines 67-95):
`config = V_CONFIG_RESET (0x00020403)`, `param = V_PARAM_RESET
(0x00004011)`, `status = R_STATUS_CMDQV_ENABLED_MASK (1)`, and every
entry of every shadow array plus the VINTF scalars zeroed (the C loops
cover every declared entry of each array). -/
def cmdqv_init_regs (s : CMDQV) : CMDQV :=
  { s with
    config := 0x00020403
    param := 0x00004011
    status := 1
    vi_err_map := fun _ => 0
    vi_int_mask := fun _ => 0
    cmdq_err_map := fun _ => 0
    vintf_config := 0
    vintf_status := 0
    vintf_cmdq_err_map := fun _ => 0
    cmdq_alloc_map := fun _ => 0
    vcmdq_cons_indx := fun _ => 0
    vcmdq_prod_indx := fun _ => 0
    vcmdq_config := fun _ => 0
    vcmdq_status := fun _ => 0
    vcmdq_gerror := fun _ => 0
    vcmdq_gerrorn := fun _ => 0
    vcmdq_base := fun _ => 0
    vcmdq_cons_indx_base := fun _ => 0 }

/-- Embedding of `cmdqv_reset` (tegra241-cmdqv.c lines 503-517): frees the
kernel queue object of every one of the 128 slots that holds one, NULLs
the slots, then calls `cmdqv_init_regs`.  Returns the new state and the
list of freed kernel queue ids. -/
def cmdqv_reset (s : CMDQV) : CMDQV × List Nat :=
  let freed := (List.range 128).filterMap s.vqueue
  (cmdqv_init_regs
    { s with vqueue := fun i => if i < 128 then none else s.vqueue i }, freed)

/-- A fully concrete power-on state used by witnesses: all registers at
their `cmdqv_init_regs` defaults, no cached viommu, no live queues, and a
zeroed live page. -/
def resetState : CMDQV :=
  cmdqv_init_regs
    { viommu := false
      vqueue := fun _ => none
      vcmdq_page0 := fun _ => 0
      config := 0
      param := 0
      status := 0
      vi_err_map := fun _ => 0
      vi_int_mask := fun _ => 0
      cmdq_err_map := fun _ => 0
      cmdq_alloc_map := fun _ => 0
      vintf_config := 0
      vintf_status := 0
      vintf_cmdq_err_map := fun _ => 0
      vcmdq_cons_indx := fun _ => 0
      vcmdq_prod_indx := fun _ => 0
      vcmdq_config := fun _ => 0
      vcmdq_status := fun _ => 0
      vcmdq_gerror := fun _ => 0
      vcmdq_gerrorn := fun _ => 0
      vcmdq_base := fun _ => 0
      vcmdq_cons_indx_base := fun _ => 0 }

/-- Concrete environment in which every setup precondition fails (no SMMU
viommu association). -/
def envNoViommu : SetupEnv :=
  { bs_viommu := false, is_ram := fun _ => false, alloc_vqueue := none }

/-- Concrete environment in which the preconditions pass but
`iommufd_viommu_alloc_queue` fails. -/
def envAllocFail : SetupEnv :=
  { bs_viommu := true, is_ram := fun _ => true, alloc_vqueue := none }

/-- The in-boundedness property of every shadow-array index computed by a
handled case of the read/write dispatchers, checked against the declared
C array lengths (`vi_err_map[2]`, `vi_int_mask[2]`, `cmdq_err_map[2]`,
`cmdq_alloc_map[128]`, `vintf_cmdq_err_map[4]`, per-queue arrays of
length 128). -/
def shadowAccessInBounds : Prop :=
  (∀ o, 0x14 ≤ o → o ≤ 0x18 → vi_err_map_idx o < 2) ∧
  (∀ o, 0x1c ≤ o → o ≤ 0x20 → vi_int_mask_idx o < 2) ∧
  (∀ o, 0x24 ≤ o → o ≤ 0x30 → cmdq_err_map_idx o < 2) ∧
  (∀ o, 0x200 ≤ o → o ≤ 0x3fc → cmdq_alloc_map_idx o < 128) ∧
  (∀ o, 0x10c0 ≤ o → o ≤ 0x10cc → vintf_cmdq_err_map_idx o < 4) ∧
  (∀ o, 0x10000 ≤ o → o ≤ 0x13f94 → vcmdq_idx_low o < 128) ∧
  (∀ o, 0x20000 ≤ o → o ≤ 0x23f8c → vcmdq_idx_high o < 128)

end Tegra241

namespace IOMMUFD

/-- Outcome of one `IOMMU_IOAS_UNMAP` ioctl as seen by
`iommufd_backend_unmap_dma`: success, or failure with the reported
`errno`. -/
inductive UnmapReply
  | ok
  | err (errno : Nat)

/-- The `ENOENT` errno value. -/
def ENOENT : Nat := 2

/-- Embedding of `iommufd_backend_unmap_dma` (backends/iommufd.c lines
180-212): a failed ioctl with `errno == ENOENT` is normalized to success
(return 0); any other failure returns `-errno`. -/
def iommufd_backend_unmap_dma (reply : UnmapReply) : Int :=
  match reply with
  | .ok => 0
  | .err e => if e = ENOENT then 0 else -(e : Int)

/-- Outcome of one `IOMMU_HWPT_INVALIDATE` / `IOMMU_DEV_INVALIDATE` ioctl:
whether the kernel accepted the call, the `errno` on rejection, and the
value of the request structure's `entry_num` field after the call (the
kernel-reported processed-entry count). -/
structure InvalReply where
  accepted : Bool
  errno : Nat
  entry_num : Nat

/-- Classification of how an invalidation wrapper terminates: normal
return 0, `g_assert` failure (hard abort), or a negative error return. -/
inductive InvalOutcome
  | ok
  | assert_failed
  | err (code : Int)
deriving DecidableEq

/-- Embedding of `iommufd_backend_invalidate_cache` (backends/iommufd.c
lines 244-272).  Returns the termination classification and the final
value of the caller's `*entry_num`: on kernel rejection `*entry_num` is
overwritten with the processed count and `-errno` is returned; on kernel
acceptance `g_assert(*entry_num == cache.entry_num)` either passes
(return 0) or aborts. -/
def iommufd_backend_invalidate_cache (entry_num : Nat) (reply : InvalReply) :
    InvalOutcome × Nat :=
  if reply.accepted then
    if entry_num = reply.entry_num then (.ok, entry_num)
    else (.assert_failed, entry_num)
  else (.err (-(reply.errno : Int)), reply.entry_num)

/-- Embedding of `iommufd_backend_invalidate_dev_cache` (backends/iommufd.c
lines 274-303); its control flow is identical to
`iommufd_backend_invalidate_cache` apart from the ioctl number and id
argument, which do not affect the outcome classification. -/
def iommufd_backend_invalidate_dev_cache (entry_num : Nat) (reply : InvalReply) :
    InvalOutcome × Nat :=
  if reply.accepted then
    if entry_num = reply.entry_num then (.ok, entry_num)
    else (.assert_failed, entry_num)
  else (.err (-(reply.errno : Int)), reply.entry_num)

end IOMMUFD

open Tegra241 IOMMUFD

/-- A state in which queue slot 0 holds a live kernel queue object with id 7
and the viommu association is cached; all registers at power-on defaults. -/
def liveQueue7 : CMDQV :=
  { resetState with
    viommu := true
    vqueue := fun i => if i = 0 then some 7 else none }

/-- C1: writing queue 0's base register (64-bit value 4, so log2size = 4) in a
state where slot 0 holds live kernel queue id 7, under an environment where
the preconditions pass but `iommufd_viommu_alloc_queue` fails, first frees
id 7 and leaves the shadow base reflecting the attempted configuration, but
afterwards slot 0 STILL stores queue id 7 (now dangling), contradicting the
claim that the slot holds no stored queue id after a failed reallocation. -/
theorem c1_failed_realloc_leaves_stale_queue_id :
    (tegra241_cmdqv_write envAllocFail liveQueue7 0x20000 4 8).freed = [7] ∧
    (tegra241_cmdqv_write envAllocFail liveQueue7 0x20000 4 8).state.vcmdq_base 0 = 4 ∧
    (tegra241_cmdqv_write envAllocFail liveQueue7 0x20000 4 8).state.vqueue 0 = some 7 ∧
    (tegra241_cmdqv_write envAllocFail liveQueue7 0x20000 4 8).state.vqueue 0 ≠ none := by
  refine ⟨by decide, by decide, by decide, by decide⟩

/-- C2: the allocation-map table is declared with a 4-byte stride
(`A_CMDQ_ALLOC_MAP_i` at `0x200 + i * 4`), so the decode rule demands index
`(0x204 - 0x200) / 4 = 1` for offset 0x204; but the code divides by 128, so
a write at 0x204 stores into entry 0 (leaving entry 1 untouched) and a read
at 0x204 returns entry 0. -/
theorem c2_alloc_map_decode_divides_by_128 :
    (0x204 - 0x200) / 4 = 1 ∧
    cmdq_alloc_map_idx 0x204 = 0 ∧
    (tegra241_cmdqv_write envNoViommu resetState 0x204 5 4).state.cmdq_alloc_map 0 = 5 ∧
    (tegra241_cmdqv_write envNoViommu resetState 0x204 5 4).state.cmdq_alloc_map 1 = 0 ∧
    (tegra241_cmdqv_read
      (tegra241_cmdqv_write envNoViommu resetState 0x204 5 4).state 0x204 4).2 = 5 := by
  refine ⟨by norm_num, by decide, by decide, by decide, by decide⟩

/-- C10: not every shadow-array index computed by a handled dispatcher case is
within the declared array length: the handled read offset 0x18
(`A_VI_ERR_MAP_1`) yields index `(0x18 - 0x14) / 2 = 2` into
`vi_err_map[2]`, and the handled read offset 0x30 (`A_CMDQ_ERR_MAP_3`)
yields index 3 into `cmdq_err_map[2]`, so the in-bounds property fails. -/
theorem c10_shadow_index_out_of_bounds :
    vi_err_map_idx 0x18 = 2 ∧
    cmdq_err_map_idx 0x30 = 3 ∧
    ¬ shadowAccessInBounds := by
  refine ⟨by decide, by decide, fun h => absurd (h.1 0x18 (by norm_num) (by norm_num)) (by decide)⟩

/-- C7: after `cmdqv_reset`, every queue slot in 0..127 stores no kernel
queue id, every previously stored id has been passed to
`iommufd_backend_free_id`, and every shadow register is at its power-on
default: config `0x00020403`, param `0x00004011`, status with the
`CMDQV_ENABLED` bit set, and all maps, masks and per-queue registers zero. -/
theorem c7_reset_restores_poweron_defaults (s : CMDQV) :
    (cmdqv_reset s).1.config = 0x00020403 ∧
    (cmdqv_reset s).1.param = 0x00004011 ∧
    ((cmdqv_reset s).1.status = 1 ∧ (cmdqv_reset s).1.status &&& 1 = 1) ∧
    (cmdqv_reset s).1.vintf_config = 0 ∧
    (cmdqv_reset s).1.vintf_status = 0 ∧
    (∀ i, i < 2 → (cmdqv_reset s).1.vi_err_map i = 0 ∧
      (cmdqv_reset s).1.vi_int_mask i = 0 ∧ (cmdqv_reset s).1.cmdq_err_map i = 0) ∧
    (∀ i, i < 4 → (cmdqv_reset s).1.vintf_cmdq_err_map i = 0) ∧
    (∀ i, i < 128 →
      (cmdqv_reset s).1.vqueue i = none ∧
      (cmdqv_reset s).1.cmdq_alloc_map i = 0 ∧
      (cmdqv_reset s).1.vcmdq_cons_indx i = 0 ∧
      (cmdqv_reset s).1.vcmdq_prod_indx i = 0 ∧
      (cmdqv_reset s).1.vcmdq_config i = 0 ∧
      (cmdqv_reset s).1.vcmdq_status i = 0 ∧
      (cmdqv_reset s).1.vcmdq_gerror i = 0 ∧
      (cmdqv_reset s).1.vcmdq_gerrorn i = 0 ∧
      (cmdqv_reset s).1.vcmdq_base i = 0 ∧
      (cmdqv_reset s).1.vcmdq_cons_indx_base i = 0) ∧
    (∀ i id, i < 128 → s.vqueue i = some id → id ∈ (cmdqv_reset s).2) := by
  refine ⟨rfl, rfl, ⟨rfl, by show (1 : Nat) &&& 1 = 1; decide⟩, rfl, rfl, ?_, ?_, ?_, ?_⟩
  · intro i _
    exact ⟨rfl, rfl, rfl⟩
  · intro i _
    rfl
  · intro i hi
    refine ⟨?_, rfl, rfl, rfl, rfl, rfl, rfl, rfl, rfl, rfl⟩
    simp [cmdqv_reset, cmdqv_init_regs, hi]
  · intro i id hi h
    simp only [cmdqv_reset]
    exact List.mem_filterMap.mpr ⟨i, List.mem_range.mpr hi, h⟩

/-- Witness for C7 at a concrete state with one live queue id 7. -/
theorem c7_reset_restores_poweron_defaults_witness :
    (cmdqv_reset liveQueue7).1.config = 0x00020403 ∧
    (cmdqv_reset liveQueue7).1.vqueue 0 = none ∧
    (7 : Nat) ∈ (cmdqv_reset liveQueue7).2 := by
  refine ⟨(c7_reset_restores_poweron_defaults liveQueue7).1, ?_, ?_⟩
  · exact ((c7_reset_restores_poweron_defaults liveQueue7).2.2.2.2.2.2.2.1
      0 (by norm_num)).1
  · exact (c7_reset_restores_poweron_defaults liveQueue7).2.2.2.2.2.2.2.2
      0 7 (by norm_num) (by decide)

/-- C8: an `IOMMU_IOAS_UNMAP` failure with errno `ENOENT` (no such mapping)
is returned as success, deterministically so for two repeated calls on the
same never-mapped range, while any other kernel failure (positive errno
distinct from `ENOENT`) is returned as the negative error `-errno`. -/
theorem c8_unmap_nonexistent_is_success :
    iommufd_backend_unmap_dma (.err ENOENT) = 0 ∧
    (∀ r1 r2 : UnmapReply, r1 = .err ENOENT → r2 = .err ENOENT →
      iommufd_backend_unmap_dma r1 = 0 ∧ iommufd_backend_unmap_dma r2 = 0) ∧
    (∀ e, 0 < e → e ≠ ENOENT →
      iommufd_backend_unmap_dma (.err e) = -(e : Int) ∧
      iommufd_backend_unmap_dma (.err e) < 0) := by
  refine ⟨rfl, ?_, ?_⟩
  · rintro r1 r2 rfl rfl
    exact ⟨rfl, rfl⟩
  · intro e he hne
    have h0 : iommufd_backend_unmap_dma (.err e) = -(e : Int) := by
      simp [iommufd_backend_unmap_dma, hne]
    refine ⟨h0, ?_⟩
    rw [h0]
    have : (0 : Int) < (e : Int) := by exact_mod_cast he
    omega

/-- Witness for C8 at errno 2 (`ENOENT`) twice and errno 22 (`EINVAL`). -/
theorem c8_unmap_nonexistent_is_success_witness :
    iommufd_backend_unmap_dma (.err 2) = 0 ∧
    iommufd_backend_unmap_dma (.err 22) = -22 := by
  refine ⟨(c8_unmap_nonexistent_is_success.2.1 (.err 2) (.err 2) rfl rfl).1, ?_⟩
  exact_mod_cast (c8_unmap_nonexistent_is_success.2.2 22 (by norm_num) (by decide)).1

/-- C9: for both invalidation wrappers, a kernel-accepted call that returns
normally has processed count equal to the requested count (the `g_assert`
holds exactly on that path); an accepted call with a count mismatch hard
aborts (`assert_failed`), which is a distinct outcome from a kernel-rejected
call, which returns `-errno` with the caller's entry count updated to the
kernel-reported processed count. -/
theorem c9_invalidate_count_mismatch_is_distinct_failure :
    (∀ n k, (iommufd_backend_invalidate_cache n k).1 = .ok → n = k.entry_num) ∧
    (∀ n k, k.accepted = true → n ≠ k.entry_num →
      (iommufd_backend_invalidate_cache n k).1 = .assert_failed) ∧
    (∀ n k, k.accepted = false →
      iommufd_backend_invalidate_cache n k = (.err (-(k.errno : Int)), k.entry_num)) ∧
    (∀ n k, (iommufd_backend_invalidate_dev_cache n k).1 = .ok → n = k.entry_num) ∧
    (∀ n k, k.accepted = true → n ≠ k.entry_num →
      (iommufd_backend_invalidate_dev_cache n k).1 = .assert_failed) ∧
    (∀ n k, k.accepted = false →
      iommufd_backend_invalidate_dev_cache n k = (.err (-(k.errno : Int)), k.entry_num)) ∧
    (∀ c : Int, InvalOutcome.assert_failed ≠ InvalOutcome.err c ∧
      InvalOutcome.assert_failed ≠ InvalOutcome.ok) := by
  refine ⟨?_, ?_, ?_, ?_, ?_, ?_, ?_⟩
  · intro n k h
    by_cases ha : k.accepted
    · by_cases he : n = k.entry_num
      · exact he
      · simp [iommufd_backend_invalidate_cache, ha, he] at h
    · simp [iommufd_backend_invalidate_cache, ha] at h
  · intro n k ha hne
    simp [iommufd_backend_invalidate_cache, ha, hne]
  · intro n k ha
    simp [iommufd_backend_invalidate_cache, ha]
  · intro n k h
    by_cases ha : k.accepted
    · by_cases he : n = k.entry_num
      · exact he
      · simp [iommufd_backend_invalidate_dev_cache, ha, he] at h
    · simp [iommufd_backend_invalidate_dev_cache, ha] at h
  · intro n k ha hne
    simp [iommufd_backend_invalidate_dev_cache, ha, hne]
  · intro n k ha
    simp [iommufd_backend_invalidate_dev_cache, ha]
  · intro c
    exact ⟨fun h => InvalOutcome.noConfusion h, fun h => InvalOutcome.noConfusion h⟩

/-- The queue-setup path never touches the 64-bit shadow base registers; it
only frees and allocates kernel queue objects and caches the viommu. -/
theorem setup_vcmdq_base_eq (env : SetupEnv) (s : CMDQV) (index : Nat) :
    (tegra241_cmdqv_setup_vcmdq env s index).state.vcmdq_base = s.vcmdq_base := by
  simp only [tegra241_cmdqv_setup_vcmdq]
  repeat' split
  all_goals rfl

/-- Bits below 32 of the high-half mask `0xffffffff00000000` are clear. -/
theorem testBit_hiMask_lt32 {k : Nat} (hk : k < 32) :
    (0xffffffff00000000 : Nat).testBit k = false := by
  have e : (0xffffffff00000000 : Nat) = 0xffffffff <<< 32 := by decide
  rw [e, Nat.testBit_shiftLeft]
  simp [show ¬ (32 ≤ k) from by omega]

/-- Bits 32..63 of the high-half mask `0xffffffff00000000` are set. -/
theorem testBit_hiMask_32_64 {k : Nat} (h1 : 32 ≤ k) (h2 : k < 64) :
    (0xffffffff00000000 : Nat).testBit k = true := by
  have e : (0xffffffff00000000 : Nat) = 0xffffffff <<< 32 := by decide
  have e2 : (0xffffffff : Nat) = 2 ^ 32 - 1 := by decide
  rw [e, Nat.testBit_shiftLeft, e2, Nat.testBit_two_pow_sub_one]
  simp [h1, show k - 32 < 32 from by omega]

/-- C3: a 4-byte write of a 32-bit value v to queue i's base-low register
(offset `0x20000 + 0x80 * i`) sets the 64-bit shadow base to
`(b &&& 0xffffffff00000000) ||| v` - preserving bits 32..63 of the prior
value b and setting bits 0..31 to v - and triggers exactly one
reconfiguration attempt carrying that combined value. -/
theorem c3_base_low_partial_write (env : SetupEnv) (s : CMDQV) (i v : Nat)
    (hi : i < 128) (hv : v < 2 ^ 32) :
    ((tegra241_cmdqv_write env s (0x20000 + 0x80 * i) v 4).state.vcmdq_base i =
      (s.vcmdq_base i &&& 0xffffffff00000000) ||| v) ∧
    ((tegra241_cmdqv_write env s (0x20000 + 0x80 * i) v 4).attempts =
      [(i, (s.vcmdq_base i &&& 0xffffffff00000000) ||| v)]) ∧
    (∀ k, k < 32 →
      ((s.vcmdq_base i &&& 0xffffffff00000000) ||| v).testBit k = v.testBit k) ∧
    (∀ k, 32 ≤ k → k < 64 →
      ((s.vcmdq_base i &&& 0xffffffff00000000) ||| v).testBit k =
        (s.vcmdq_base i).testBit k) := by
  have hv32 : v &&& 0xffffffff = v := by
    rw [show (0xffffffff : Nat) = 2 ^ 32 - 1 from by norm_num,
        Nat.and_pow_two_sub_one_of_lt_two_pow hv]
  have hw : tegra241_cmdqv_write env s (0x20000 + 0x80 * i) v 4 =
      writeVcmdqHigh env s (0x20000 + 0x80 * i) v 4 := by
    have n1 : ¬ (0x20000 + 0x80 * i > 0x50000) := by omega
    have n2 : ¬ (0x20000 + 0x80 * i = 0) := by omega
    have n3 : ¬ (0x1c ≤ 0x20000 + 0x80 * i ∧ 0x20000 + 0x80 * i ≤ 0x20) := by omega
    have n4 : ¬ (0x200 ≤ 0x20000 + 0x80 * i ∧ 0x20000 + 0x80 * i ≤ 0x3fc) := by omega
    have n5 : ¬ (0x1000 ≤ 0x20000 + 0x80 * i ∧ 0x20000 + 0x80 * i ≤ 0x10cc) := by
      omega
    have n6 : ¬ ((0x30000 ≤ 0x20000 + 0x80 * i ∧ 0x20000 + 0x80 * i ≤ 0x33f94) ∨
        (0x10000 ≤ 0x20000 + 0x80 * i ∧ 0x20000 + 0x80 * i ≤ 0x13f94)) := by omega
    have p7 : (0x40000 ≤ 0x20000 + 0x80 * i ∧ 0x20000 + 0x80 * i ≤ 0x43f8c) ∨
        (0x20000 ≤ 0x20000 + 0x80 * i ∧ 0x20000 + 0x80 * i ≤ 0x23f8c) :=
      Or.inr ⟨by omega, by omega⟩
    have n8 : ¬ (0x40000 ≤ 0x20000 + 0x80 * i) := by omega
    unfold tegra241_cmdqv_write
    rw [if_neg n1, if_neg n2, if_neg n3, if_neg n4, if_neg n5, if_neg n6,
        if_pos p7, if_neg n8]
  have hidx : vcmdq_idx_high (0x20000 + 0x80 * i) = i := by
    unfold vcmdq_idx_high
    omega
  have hw2 : writeVcmdqHigh env s (0x20000 + 0x80 * i) v 4 =
      tegra241_cmdqv_write_vcmdq env s 0x20000 i v 4 := by
    simp only [writeVcmdqHigh, hidx]
    rw [show 0x20000 + 0x80 * i - 0x80 * i = 0x20000 from by omega]
  have hres := hw.trans hw2
  refine ⟨?_, ?_, ?_, ?_⟩
  · rw [hres]
    simp only [tegra241_cmdqv_write_vcmdq]
    norm_num
    rw [setup_vcmdq_base_eq]
    simp [updNat, hv32]
  · rw [hres]
    simp only [tegra241_cmdqv_write_vcmdq]
    norm_num [hv32]
  · intro k hk
    rw [Nat.testBit_or, Nat.testBit_and, testBit_hiMask_lt32 hk]
    simp
  · intro k h1 h2
    have hle : (2 : Nat) ^ 32 ≤ 2 ^ k := Nat.pow_le_pow_right (by decide) h1
    have hvk : v.testBit k = false := Nat.testBit_lt_two_pow (Nat.lt_of_lt_of_le hv hle)
    rw [Nat.testBit_or, Nat.testBit_and, testBit_hiMask_32_64 h1 h2, hvk]
    simp

/-- Witness for C3 at queue 3 on the reset state. -/
theorem c3_base_low_partial_write_witness :
    (tegra241_cmdqv_write envNoViommu resetState (0x20000 + 0x80 * 3) 0xabcd 4).state.vcmdq_base 3 =
      0xabcd := by
  have h := (c3_base_low_partial_write envNoViommu resetState 3 0xabcd
    (by norm_num) (by norm_num)).1
  rw [show resetState.vcmdq_base 3 = 0 from rfl] at h
  simpa using h

/-- C5: a write to the virtual-interface config register (offset 0x1000)
stores the guest value with the HYP_OWN bit (bit 17) cleared, sets the
status register's ENABLE_OK bit (bit 0) exactly when the written value has
the ENABLE bit (bit 0) set, and reading the config register back returns
the stored HYP_OWN-cleared value. -/
theorem c5_vintf_config_write (env : SetupEnv) (s : CMDQV) (v size : Nat)
    (hv : v < 2 ^ 32) :
    ((tegra241_cmdqv_write env s 0x1000 v size).state.vintf_config =
      v &&& 0xfffdffff) ∧
    ((tegra241_cmdqv_write env s 0x1000 v size).state.vintf_config).testBit 17 =
      false ∧
    ((tegra241_cmdqv_write env s 0x1000 v size).state.vintf_status &&& 1 =
      v &&& 1) ∧
    ((tegra241_cmdqv_read (tegra241_cmdqv_write env s 0x1000 v size).state
        0x1000 size).2 = v &&& 0xfffdffff) := by
  have hmaskbig : v &&& 0xfffffffffffdffff = v &&& 0xfffdffff := by
    conv_lhs => rw [← Nat.and_pow_two_sub_one_of_lt_two_pow hv]
    rw [Nat.and_assoc,
        show ((2 : Nat) ^ 32 - 1) &&& 0xfffffffffffdffff = 0xfffdffff from by decide]
  have hlt : v &&& 0xfffdffff < 2 ^ 32 := Nat.and_lt_two_pow v (by norm_num)
  have hmod : (v &&& 0xfffffffffffdffff) % 2 ^ 32 = v &&& 0xfffdffff := by
    rw [hmaskbig]
    exact Nat.mod_eq_of_lt hlt
  have hbit1 : (v &&& 0xfffffffffffdffff) &&& 1 = v &&& 1 := by
    rw [Nat.and_assoc,
        show (0xfffffffffffdffff : Nat) &&& 1 = 1 from by decide]
  have hw : (tegra241_cmdqv_write env s 0x1000 v size).state =
      tegra241_cmdqv_write_vintf s 0x1000 v size := by
    norm_num [tegra241_cmdqv_write]
  have hcfg : (tegra241_cmdqv_write_vintf s 0x1000 v size).vintf_config =
      v &&& 0xfffdffff := by
    unfold tegra241_cmdqv_write_vintf
    rw [if_pos rfl]
    by_cases hb : (v &&& 0xfffffffffffdffff) &&& 1 = 0
    · rw [if_neg (not_not_intro hb)]
      exact hmod
    · rw [if_pos hb]
      exact hmod
  have hst : (tegra241_cmdqv_write_vintf s 0x1000 v size).vintf_status &&& 1 =
      v &&& 1 := by
    unfold tegra241_cmdqv_write_vintf
    rw [if_pos rfl]
    by_cases hb : (v &&& 0xfffffffffffdffff) &&& 1 = 0
    · rw [if_neg (not_not_intro hb)]
      show (s.vintf_status &&& 0xfffffffe) &&& 1 = v &&& 1
      rw [Nat.and_assoc, show (0xfffffffe : Nat) &&& 1 = 0 from by decide,
          Nat.and_zero]
      rw [hbit1] at hb
      exact hb.symm
    · rw [if_pos hb]
      show (1 : Nat) &&& 1 = v &&& 1
      rw [hbit1] at hb
      have h1 : v &&& 1 = 1 := by
        rw [Nat.and_one_is_mod] at hb ⊢
        omega
      rw [h1]
      decide
  have hr : ∀ t : CMDQV, (tegra241_cmdqv_read t 0x1000 size).2 = t.vintf_config := by
    intro t
    norm_num [tegra241_cmdqv_read, tegra241_cmdqv_read_vintf]
  refine ⟨?_, ?_, ?_, ?_⟩
  · rw [hw, hcfg]
  · rw [hw, hcfg, Nat.testBit_and,
        show (0xfffdffff : Nat).testBit 17 = false from by decide]
    simp
  · rw [hw, hst]
  · rw [hw, hr, hcfg]

/-- Witness for C5 with value 0x20001 (HYP_OWN and ENABLE both set): the
stored config keeps only the ENABLE bit and ENABLE_OK is acknowledged. -/
theorem c5_vintf_config_write_witness :
    (tegra241_cmdqv_write envNoViommu resetState 0x1000 0x20001 4).state.vintf_config = 1 ∧
    (tegra241_cmdqv_write envNoViommu resetState 0x1000 0x20001 4).state.vintf_status &&& 1 = 1 := by
  have h := c5_vintf_config_write envNoViommu resetState 0x20001 4 (by norm_num)
  constructor
  · rw [h.1]
    decide
  · rw [h.2.2.1]
    decide

/-- C4: every write through the two virtual-interface alias windows (offsets
0x30000-0x33f94 and 0x40000-0x43f8c, the per-queue ranges the dispatcher
handles) produces exactly the same result - shadow registers, live-page
mirror, freed ids and reconfiguration attempts - as the same write at the
primary-window offset 0x20000 lower. -/
theorem c4_alias_window_write_equiv (env : SetupEnv) (s : CMDQV)
    (value size o : Nat)
    (h : (0x30000 ≤ o ∧ o ≤ 0x33f94) ∨ (0x40000 ≤ o ∧ o ≤ 0x43f8c)) :
    tegra241_cmdqv_write env s o value size =
    tegra241_cmdqv_write env s (o - 0x20000) value size := by
  rcases h with ⟨h1, h2⟩ | ⟨h1, h2⟩
  · have hL : tegra241_cmdqv_write env s o value size =
        writeVcmdqLow env s (o - 0x20000) value size := by
      have na : ¬ (o > 0x50000) := by omega
      have nb : ¬ (o = 0) := by omega
      have nc : ¬ (0x1c ≤ o ∧ o ≤ 0x20) := by omega
      have nd : ¬ (0x200 ≤ o ∧ o ≤ 0x3fc) := by omega
      have ne' : ¬ (0x1000 ≤ o ∧ o ≤ 0x10cc) := by omega
      unfold tegra241_cmdqv_write
      rw [if_neg na, if_neg nb, if_neg nc, if_neg nd, if_neg ne',
          if_pos (Or.inl ⟨h1, h2⟩), if_pos h1]
    have hR : tegra241_cmdqv_write env s (o - 0x20000) value size =
        writeVcmdqLow env s (o - 0x20000) value size := by
      have na : ¬ (o - 0x20000 > 0x50000) := by omega
      have nb : ¬ (o - 0x20000 = 0) := by omega
      have nc : ¬ (0x1c ≤ o - 0x20000 ∧ o - 0x20000 ≤ 0x20) := by omega
      have nd : ¬ (0x200 ≤ o - 0x20000 ∧ o - 0x20000 ≤ 0x3fc) := by omega
      have ne' : ¬ (0x1000 ≤ o - 0x20000 ∧ o - 0x20000 ≤ 0x10cc) := by omega
      have pf : (0x30000 ≤ o - 0x20000 ∧ o - 0x20000 ≤ 0x33f94) ∨
          (0x10000 ≤ o - 0x20000 ∧ o - 0x20000 ≤ 0x13f94) :=
        Or.inr ⟨by omega, by omega⟩
      have ng : ¬ (0x30000 ≤ o - 0x20000) := by omega
      unfold tegra241_cmdqv_write
      rw [if_neg na, if_neg nb, if_neg nc, if_neg nd, if_neg ne',
          if_pos pf, if_neg ng]
    rw [hL, hR]
  · have hL : tegra241_cmdqv_write env s o value size =
        writeVcmdqHigh env s (o - 0x20000) value size := by
      have na : ¬ (o > 0x50000) := by omega
      have nb : ¬ (o = 0) := by omega
      have nc : ¬ (0x1c ≤ o ∧ o ≤ 0x20) := by omega
      have nd : ¬ (0x200 ≤ o ∧ o ≤ 0x3fc) := by omega
      have ne' : ¬ (0x1000 ≤ o ∧ o ≤ 0x10cc) := by omega
      have nf : ¬ ((0x30000 ≤ o ∧ o ≤ 0x33f94) ∨
          (0x10000 ≤ o ∧ o ≤ 0x13f94)) := by omega
      unfold tegra241_cmdqv_write
      rw [if_neg na, if_neg nb, if_neg nc, if_neg nd, if_neg ne', if_neg nf,
          if_pos (Or.inl ⟨h1, h2⟩), if_pos h1]
    have hR : tegra241_cmdqv_write env s (o - 0x20000) value size =
        writeVcmdqHigh env s (o - 0x20000) value size := by
      have na : ¬ (o - 0x20000 > 0x50000) := by omega
      have nb : ¬ (o - 0x20000 = 0) := by omega
      have nc : ¬ (0x1c ≤ o - 0x20000 ∧ o - 0x20000 ≤ 0x20) := by omega
      have nd : ¬ (0x200 ≤ o - 0x20000 ∧ o - 0x20000 ≤ 0x3fc) := by omega
      have ne' : ¬ (0x1000 ≤ o - 0x20000 ∧ o - 0x20000 ≤ 0x10cc) := by omega
      have nf : ¬ ((0x30000 ≤ o - 0x20000 ∧ o - 0x20000 ≤ 0x33f94) ∨
          (0x10000 ≤ o - 0x20000 ∧ o - 0x20000 ≤ 0x13f94)) := by omega
      have pg : (0x40000 ≤ o - 0x20000 ∧ o - 0x20000 ≤ 0x43f8c) ∨
          (0x20000 ≤ o - 0x20000 ∧ o - 0x20000 ≤ 0x23f8c) :=
        Or.inr ⟨by omega, by omega⟩
      have nh : ¬ (0x40000 ≤ o - 0x20000) := by omega
      unfold tegra241_cmdqv_write
      rw [if_neg na, if_neg nb, if_neg nc, if_neg nd, if_neg ne', if_neg nf,
          if_pos pg, if_neg nh]
    rw [hL, hR]

/-- Witness for C4 at the first offsets of both alias windows. -/
theorem c4_alias_window_write_equiv_witness :
    tegra241_cmdqv_write envNoViommu resetState 0x30000 9 4 =
      tegra241_cmdqv_write envNoViommu resetState (0x30000 - 0x20000) 9 4 ∧
    tegra241_cmdqv_write envAllocFail liveQueue7 0x40000 9 4 =
      tegra241_cmdqv_write envAllocFail liveQueue7 (0x40000 - 0x20000) 9 4 := by
  constructor
  · exact c4_alias_window_write_equiv envNoViommu resetState 9 4 0x30000
      (Or.inl ⟨by norm_num, by norm_num⟩)
  · exact c4_alias_window_write_equiv envAllocFail liveQueue7 9 4 0x40000
      (Or.inr ⟨by norm_num, by norm_num⟩)

/-- C6: any access at or beyond the end of the 0x50000-byte window changes no
state (no shadow register, no queue slot, no freed id, no reconfiguration
attempt) and reads as 0.  Offsets strictly beyond 0x50000 take the
dedicated off-limit diagnostic path; offset 0x50000 itself falls through
every handled case to the unhandled-access diagnostic, with the same null
effect. -/
theorem c6_beyond_window_noop (env : SetupEnv) (s : CMDQV) (value size o : Nat)
    (h : 0x50000 ≤ o) :
    tegra241_cmdqv_write env s o value size = ⟨s, [], []⟩ ∧
    tegra241_cmdqv_read s o size = (s, 0) := by
  rcases Nat.lt_or_ge 0x50000 o with hgt | hle
  · constructor
    · unfold tegra241_cmdqv_write
      rw [if_pos hgt]
    · unfold tegra241_cmdqv_read
      rw [if_pos hgt]
  · have ho : o = 0x50000 := Nat.le_antisymm hle h
    subst ho
    constructor
    · norm_num [tegra241_cmdqv_write]
    · norm_num [tegra241_cmdqv_read]

/-- Witness for C6 at offsets 0x50000 and 0x60000. -/
theorem c6_beyond_window_noop_witness :
    tegra241_cmdqv_write envNoViommu resetState 0x50000 1 4 = ⟨resetState, [], []⟩ ∧
    tegra241_cmdqv_read resetState 0x60000 4 = (resetState, 0) := by
  exact ⟨(c6_beyond_window_noop envNoViommu resetState 1 4 0x50000 (by norm_num)).1,
         (c6_beyond_window_noop envNoViommu resetState 1 4 0x60000 (by norm_num)).2⟩

/-- Witness for C9: an accepted call with mismatched counts aborts, and a
rejected call returns the negative errno with the updated count. -/
theorem c9_invalidate_count_mismatch_is_distinct_failure_witness :
    (iommufd_backend_invalidate_cache 3 ⟨true, 0, 5⟩).1 = .assert_failed ∧
    iommufd_backend_invalidate_dev_cache 3 ⟨false, 22, 1⟩ = (.err (-22), 1) := by
  constructor
  · exact c9_invalidate_count_mismatch_is_distinct_failure.2.1 3 ⟨true, 0, 5⟩ rfl
      (by norm_num)
  · have h := c9_invalidate_count_mismatch_is_distinct_failure.2.2.2.2.2.1 3
      (⟨false, 22, 1⟩ : InvalReply) rfl
    simpa using h
